import Mathlib

/-!
Shallow embedding of `crates/primitives/src/stage/id.rs`: the `StageId`
enumeration of the staged sync pipeline, its two constant listings
(`ALL`, `STATE_REQUIRED`), the string conversion `as_str`, the `Display`
rendering, and the three classification predicates.
-/

namespace RethStage

/-- The `StageId` enum: twelve current named variants, the deprecated
`StaticFile` variant, and the open `Other` case carrying a string. -/
inductive StageId where
  | StaticFile
  | Headers
  | Bodies
  | SenderRecovery
  | Execution
  | MerkleUnwind
  | AccountHashing
  | StorageHashing
  | MerkleExecute
  | TransactionLookup
  | IndexStorageHistory
  | IndexAccountHistory
  | Finish
  | Other (s : String)
  deriving DecidableEq, Repr

/-- `StageId::ALL`: the canonical ordering of the twelve current stages. -/
def StageId.ALL : List StageId :=
  [ StageId.Headers,
    StageId.Bodies,
    StageId.SenderRecovery,
    StageId.Execution,
    StageId.MerkleUnwind,
    StageId.AccountHashing,
    StageId.StorageHashing,
    StageId.MerkleExecute,
    StageId.TransactionLookup,
    StageId.IndexStorageHistory,
    StageId.IndexAccountHistory,
    StageId.Finish ]

/-- `StageId::STATE_REQUIRED`: the stages that require state. -/
def StageId.STATE_REQUIRED : List StageId :=
  [ StageId.Execution,
    StageId.MerkleUnwind,
    StageId.AccountHashing,
    StageId.StorageHashing,
    StageId.MerkleExecute,
    StageId.IndexStorageHistory,
    StageId.IndexAccountHistory ]

/-- `StageId::as_str`: the stage id formatted as a string. -/
def StageId.as_str : StageId → String
  | StageId.StaticFile => "StaticFile"
  | StageId.Headers => "Headers"
  | StageId.Bodies => "Bodies"
  | StageId.SenderRecovery => "SenderRecovery"
  | StageId.Execution => "Execution"
  | StageId.MerkleUnwind => "MerkleUnwind"
  | StageId.AccountHashing => "AccountHashing"
  | StageId.StorageHashing => "StorageHashing"
  | StageId.MerkleExecute => "MerkleExecute"
  | StageId.TransactionLookup => "TransactionLookup"
  | StageId.IndexAccountHistory => "IndexAccountHistory"
  | StageId.IndexStorageHistory => "IndexStorageHistory"
  | StageId.Finish => "Finish"
  | StageId.Other s => s

/-- The `Display` impl for `StageId` writes exactly `self.as_str()`. -/
def StageId.display (x : StageId) : String := x.as_str

/-- `StageId::is_downloading_stage`: matches `Headers | Bodies`. -/
def StageId.is_downloading_stage : StageId → Bool
  | StageId.Headers => true
  | StageId.Bodies => true
  | _ => false

/-- `StageId::is_tx_lookup`: matches `TransactionLookup`. -/
def StageId.is_tx_lookup : StageId → Bool
  | StageId.TransactionLookup => true
  | _ => false

/-- `StageId::is_finish`: matches `Finish`. -/
def StageId.is_finish : StageId → Bool
  | StageId.Finish => true
  | _ => false

/-- Modelled from the spec: the source defines only the `STATE_REQUIRED`
constant and no `requires_state` function; the spec describes
`requires_state(self) -> bool` as derived from membership in the
State-Required Set. -/
def StageId.requires_state (x : StageId) : Bool :=
  StageId.STATE_REQUIRED.contains x

/-- Constructor tag of a `StageId` value: named variants get distinct tags,
the `Other` case gets its own tag.  Used to state that the derived
equality identifies values exactly when they are the same named variant or
both `Other` with equal payloads. -/
def StageId.variantTag : StageId → Nat
  | StageId.StaticFile => 0
  | StageId.Headers => 1
  | StageId.Bodies => 2
  | StageId.SenderRecovery => 3
  | StageId.Execution => 4
  | StageId.MerkleUnwind => 5
  | StageId.AccountHashing => 6
  | StageId.StorageHashing => 7
  | StageId.MerkleExecute => 8
  | StageId.TransactionLookup => 9
  | StageId.IndexStorageHistory => 10
  | StageId.IndexAccountHistory => 11
  | StageId.Finish => 12
  | StageId.Other _ => 13

/-- The string payload of the `Other` case, `none` for named variants. -/
def StageId.customStr : StageId → Option String
  | StageId.Other s => some s
  | _ => none

end RethStage

namespace RethStage

/-- C1. The canonical ordering `StageId.ALL` has exactly 12 elements, all
pairwise distinct, and its first element is the `Headers` identity. -/
theorem all_canonical_ordering :
    StageId.ALL.length = 12 ∧ StageId.ALL.Nodup ∧
      StageId.ALL.head? = some StageId.Headers := by
  decide

/-- C2. `StageId.STATE_REQUIRED` has exactly 7 elements and every element
of it is also a member of the canonical ordering `StageId.ALL`. -/
theorem state_required_subset_all :
    StageId.STATE_REQUIRED.length = 7 ∧
      ∀ x ∈ StageId.STATE_REQUIRED, x ∈ StageId.ALL := by
  decide

/-- Witness for C2 at the `Execution` identity. -/
theorem state_required_subset_all_witness :
    StageId.Execution ∈ StageId.STATE_REQUIRED ∧
      StageId.Execution ∈ StageId.ALL :=
  ⟨by decide, state_required_subset_all.2 StageId.Execution (by decide)⟩

/-- C3. For every `StageId` value, `is_downloading_stage` returns true iff
the value is the `Headers` or the `Bodies` identity; in particular it is
false for every `Other s`, including `Other "Headers"`. -/
theorem is_downloading_stage_iff (x : StageId) :
    x.is_downloading_stage = true ↔
      (x = StageId.Headers ∨ x = StageId.Bodies) := by
  cases x <;> simp [StageId.is_downloading_stage]

/-- C4. For every `StageId` value the `Display` rendering equals `as_str`,
and for every member of the canonical ordering that string is non-empty. -/
theorem display_eq_as_str_and_nonempty :
    (∀ x : StageId, x.display = x.as_str) ∧
      ∀ x ∈ StageId.ALL, x.as_str ≠ "" := by
  refine ⟨fun x => rfl, ?_⟩
  decide

/-- Witness for C4 at the `Headers` identity. -/
theorem display_eq_as_str_and_nonempty_witness :
    StageId.Headers ∈ StageId.ALL ∧ StageId.Headers.as_str ≠ "" :=
  ⟨by decide, display_eq_as_str_and_nonempty.2 StageId.Headers (by decide)⟩

/-- C5. For every `StageId` value, `requires_state` returns true iff the
value is a member of the State-Required Set `StageId.STATE_REQUIRED`. -/
theorem requires_state_iff_mem (x : StageId) :
    x.requires_state = true ↔ x ∈ StageId.STATE_REQUIRED := by
  simp [StageId.requires_state]

/-- C6. For every `StageId` value, `is_finish` is true iff the value is the
`Finish` identity, and `is_tx_lookup` is true iff it is the
`TransactionLookup` identity. -/
theorem is_finish_and_is_tx_lookup_iff (x : StageId) :
    (x.is_finish = true ↔ x = StageId.Finish) ∧
      (x.is_tx_lookup = true ↔ x = StageId.TransactionLookup) := by
  cases x <;> simp [StageId.is_finish, StageId.is_tx_lookup]

/-- C7. Two `StageId` values are equal iff they are the same named variant,
or both are the `Other` case with equal wrapped strings (stated via the
constructor tag and the `Other` payload); in particular
`Other "Foo" = Other "Foo"`, `Other "Foo" ≠ Other "Bar"`, and
`Other "Headers" ≠ Headers`. -/
theorem eq_iff_same_variant_and_payload :
    (∀ x y : StageId,
        x = y ↔ (x.variantTag = y.variantTag ∧ x.customStr = y.customStr)) ∧
      StageId.Other "Foo" = StageId.Other "Foo" ∧
      StageId.Other "Foo" ≠ StageId.Other "Bar" ∧
      StageId.Other "Headers" ≠ StageId.Headers := by
  refine ⟨fun x y => ?_, by decide, by decide, by decide⟩
  constructor
  · rintro rfl; exact ⟨rfl, rfl⟩
  · cases x <;> cases y <;>
      simp [StageId.variantTag, StageId.customStr]

/-- C8. The deprecated `StaticFile` identity appears neither in
`StageId.ALL` nor in `StageId.STATE_REQUIRED`, yet `as_str` still returns
the fixed string "StaticFile" for it. -/
theorem static_file_excluded_but_named :
    StageId.StaticFile ∉ StageId.ALL ∧
      StageId.StaticFile ∉ StageId.STATE_REQUIRED ∧
      StageId.StaticFile.as_str = "StaticFile" := by
  decide

/-- C9. Filtering the canonical ordering by `is_downloading_stage` yields
exactly the two-element sequence `[Headers, Bodies]`, in that order. -/
theorem filter_downloading_stages :
    StageId.ALL.filter StageId.is_downloading_stage =
      [StageId.Headers, StageId.Bodies] := by
  decide

/-- C10. Restricted to the non-`Other` variants (payload `customStr` is
`none`), `as_str` is injective: two non-custom values with the same name
string are equal. -/
theorem as_str_injective_on_named (x y : StageId)
    (hx : x.customStr = none) (hy : y.customStr = none) :
    x.as_str = y.as_str → x = y := by
  cases x <;> cases y <;>
    first
      | decide
      | (simp [StageId.customStr] at hx hy)

/-- Witness for C10 at the `Headers` identity. -/
theorem as_str_injective_on_named_witness :
    StageId.Headers.customStr = none ∧ StageId.Headers = StageId.Headers :=
  ⟨rfl, as_str_injective_on_named StageId.Headers StageId.Headers rfl rfl rfl⟩

end RethStage
